import Mathlib

/-!
Shallow embedding of the per-call duplex relay in `src/main.py`
(`handle_media_stream` and its inner coroutines `receive_from_twilio`,
`send_to_twilio`, `handle_speech_started_event`, `send_mark`,
`check_call_duration`), together with the tool dispatcher embedded in
`send_to_twilio`.

Modelling conventions:
- The per-call mutable closure variables (`stream_sid`,
  `latest_media_timestamp`, `last_assistant_item`, `mark_queue`,
  `response_start_timestamp_twilio`) become the record `SessionState`,
  and each handler becomes a pure function from state and event to new
  state plus the ordered list of messages sent on the two sockets.
- Python truthiness tests on these optional strings (`if stream_sid:`,
  `if last_assistant_item:`, `if response.get('item_id'):`) are modelled
  by `optTruthy`, which is false for `none` and for the empty string.
- Timestamps are `Int` (they come from `int(...)` on JSON fields) and
  the event-loop clock is `Nat` seconds.
- The base64 decode/re-encode of an audio delta and the JSON parsing of
  tool-call arguments are external library calls; they are parameters of
  the model (`ToolEnv`), as are the tool handlers themselves, whose
  bodies perform network IO outside the relay core.
- An OpenAI message on which `json.loads` raises, or whose parsed value
  has no usable `'type'` field, is `ModelMsg.malformed`: in the source
  the exception escapes the `async for` body.
-/

namespace SpeechRelay

/-- Python truthiness of an `Option String` field: `None` and the empty
string are falsy, every other string is truthy. -/
def optTruthy : Option String → Bool
  | none => false
  | some s => s ≠ ""

/-- The per-call connection state of `handle_media_stream`: the closure
variables shared by `receive_from_twilio` and `send_to_twilio`. -/
structure SessionState where
  stream_sid : Option String
  latest_media_timestamp : Int
  last_assistant_item : Option String
  mark_queue : List String
  response_start_timestamp_twilio : Option Int
  deriving Repr, DecidableEq

/-- A parsed Twilio (telephony-side) inbound event, as destructured by
`receive_from_twilio`. `other` covers event types with no branch
(e.g. `stop`). -/
inductive TwilioEvent where
  | media (timestamp : Int) (payload : String)
  | start (streamSid : String)
  | mark (name : String)
  | other (event : String)
  deriving Repr, DecidableEq

/-- A message sent to the OpenAI realtime socket by the relay core. -/
inductive OpenAIOut where
  | audioAppend (audio : String)
  | truncate (item_id : String) (content_index : Nat) (audio_end_ms : Int)
  | functionCallOutput (call_id : Option String) (output : String)
  | responseCreate
  | assistantMessageItem (text : String)
  deriving Repr, DecidableEq

/-- A message sent to the Twilio websocket by the relay core. -/
inductive TwilioOut where
  | media (streamSid : Option String) (payload : String)
  | mark (streamSid : String) (name : String)
  | clear (streamSid : Option String)
  deriving Repr, DecidableEq

/-- One outbound send, on either socket, in program order. -/
inductive RelayOut where
  | toOpenai (m : OpenAIOut)
  | toTwilio (m : TwilioOut)
  deriving Repr, DecidableEq

/-- The body of `receive_from_twilio`'s `async for` for one parsed
Twilio event (the call-duration check is modelled separately in the
loop functions below).

Source fidelity notes, from `src/main.py` lines 1311-1336:
- the `media` branch is guarded by `data['event'] == 'media' and
  openai_ws.open`, so with the OpenAI socket closed the timestamp
  update is skipped along with the forwarding;
- `receive_from_twilio` declares `nonlocal stream_sid,
  latest_media_timestamp` only, so the `start` branch's assignments
  `response_start_timestamp_twilio = None` and `last_assistant_item =
  None` bind fresh function-local names and leave the shared session
  fields (the ones read by `send_to_twilio` and
  `handle_speech_started_event`) unchanged;
- the `mark` branch pops `mark_queue[0]` only when the list is
  non-empty. -/
def receive_from_twilio_event (openai_open : Bool) (s : SessionState) :
    TwilioEvent → SessionState × List RelayOut
  | .media ts payload =>
      if openai_open then
        ({ s with latest_media_timestamp := ts },
         [.toOpenai (.audioAppend payload)])
      else (s, [])
  | .start sid =>
      ({ s with stream_sid := some sid, latest_media_timestamp := 0 }, [])
  | .mark _ =>
      if s.mark_queue.isEmpty then (s, [])
      else ({ s with mark_queue := s.mark_queue.tail }, [])
  | .other _ => (s, [])

/-- `send_mark` (`src/main.py` lines 1622-1630): when `stream_sid` is
truthy, send a `mark` telephony event named `responsePart` and append
that token to `mark_queue`; otherwise do nothing. -/
def send_mark (s : SessionState) : SessionState × List RelayOut :=
  match s.stream_sid with
  | some sid =>
      if sid ≠ "" then
        ({ s with mark_queue := s.mark_queue ++ ["responsePart"] },
         [.toTwilio (.mark sid "responsePart")])
      else (s, [])
  | none => (s, [])

/-- `handle_speech_started_event` (`src/main.py` lines 1592-1620):
when `mark_queue` is truthy and `response_start_timestamp_twilio` is
not `None`, compute the elapsed playback time, send a truncate command
when `last_assistant_item` is truthy, send a `clear` telephony event
for the current `stream_sid`, and reset `mark_queue`,
`last_assistant_item` and `response_start_timestamp_twilio`. -/
def handle_speech_started_event (s : SessionState) :
    SessionState × List RelayOut :=
  match s.response_start_timestamp_twilio with
  | some t0 =>
      if s.mark_queue.isEmpty then (s, [])
      else
        let elapsed := s.latest_media_timestamp - t0
        let truncOut : List RelayOut :=
          match s.last_assistant_item with
          | some item =>
              if item ≠ "" then [.toOpenai (.truncate item 0 elapsed)] else []
          | none => []
        ({ s with mark_queue := [], last_assistant_item := none,
                  response_start_timestamp_twilio := none },
         truncOut ++ [.toTwilio (.clear s.stream_sid)])
  | none => (s, [])

/-- A parsed OpenAI model event, as read with `response.get(...)` in
`send_to_twilio`. Absent keys are `none`. -/
structure ModelEvent where
  type : String
  delta : Option String
  item_id : Option String
  call_id : Option String
  name : Option String
  arguments : Option String
  deriving Repr, DecidableEq

/-- Outcome of running one tool handler: the returned text, or the
message of the exception it raised. -/
inductive ToolOutcome where
  | ok (result : String)
  | exc (msg : String)
  deriving Repr, DecidableEq

/-- External library calls the dispatcher and audio branch depend on,
abstracted over the argument-record type `A`:
`parseArgs` is `json.loads` on the arguments string (`none` when it
raises), `parseErrMsg` is the `str(e)` of that exception, `emptyArgs`
is the `{}` used when `arguments` is falsy, `run` invokes the tool
handler named by its first argument, and `reenc` is the base64
decode/re-encode applied to an audio delta payload. -/
structure ToolEnv (A : Type) where
  parseArgs : String → Option A
  parseErrMsg : String → String
  emptyArgs : A
  run : String → A → ToolOutcome
  reenc : String → String

/-- The tool names with a dispatch branch in `send_to_twilio`
(`src/main.py` lines 1391-1566). -/
def registered_tools : List String :=
  ["get_place_info", "get_current_time", "web_search", "get_stock_info",
   "get_directions", "search_youtube", "knowledge_graph_search",
   "search_news"]

/-- The name-dispatch chain run after arguments parse: each registered
branch sends one `function_call_output` item keyed by `call_id`
followed by one `response.create`; on a handler exception the
`except` clause sends the error text the same way; an unknown (or
absent) name only logs. -/
def dispatch_by_name {A : Type} (env : ToolEnv A) (call_id : Option String)
    (name : Option String) (args : A) : List OpenAIOut :=
  match name with
  | some n =>
      if n ∈ registered_tools then
        match env.run n args with
        | .ok result =>
            [.functionCallOutput call_id result, .responseCreate]
        | .exc msg =>
            [.functionCallOutput call_id ("Error executing function: " ++ msg),
             .responseCreate]
      else []
  | none => []

/-- The `response.function_call_arguments.done` handler
(`src/main.py` lines 1378-1581): `args = json.loads(arguments) if
arguments else {}` inside the `try`, then the name-dispatch chain; any
exception (a JSON decode error included) reaches the `except` clause,
which sends an error `function_call_output` and a `response.create`. -/
def dispatchFunctionCall {A : Type} (env : ToolEnv A) (call_id : Option String)
    (name : Option String) (arguments : Option String) : List OpenAIOut :=
  match arguments with
  | none => dispatch_by_name env call_id name env.emptyArgs
  | some a =>
      if a = "" then dispatch_by_name env call_id name env.emptyArgs
      else
        match env.parseArgs a with
        | some v => dispatch_by_name env call_id name v
        | none =>
            [.functionCallOutput call_id
               ("Error executing function: " ++ env.parseErrMsg a),
             .responseCreate]

/-- The body of `send_to_twilio`'s `async for` for one parsed model
event (`src/main.py` lines 1351-1588): three sequential `if` branches
on the event type, run in order on the same state.

- `response.audio.delta` with a `delta` key: forward the re-encoded
  payload as a telephony `media` frame tagged with the current
  `stream_sid`; set `response_start_timestamp_twilio` to
  `latest_media_timestamp` when it is `None`; set
  `last_assistant_item` when the event's `item_id` is truthy; then
  `send_mark`.
- `response.function_call_arguments.done`: the dispatcher above.
- `input_audio_buffer.speech_started`: call
  `handle_speech_started_event` when `last_assistant_item` is truthy. -/
def send_to_twilio_event {A : Type} (env : ToolEnv A) (s : SessionState)
    (e : ModelEvent) : SessionState × List RelayOut :=
  let step1 : SessionState × List RelayOut :=
    if e.type = "response.audio.delta" ∧ e.delta.isSome then
      let payload := env.reenc (e.delta.getD "")
      let sA :=
        if s.response_start_timestamp_twilio = none then
          { s with response_start_timestamp_twilio :=
                     some s.latest_media_timestamp }
        else s
      let sB :=
        if optTruthy e.item_id then
          { sA with last_assistant_item := e.item_id }
        else sA
      let marked := send_mark sB
      (marked.1, .toTwilio (.media s.stream_sid payload) :: marked.2)
    else (s, [])
  let step2 : SessionState × List RelayOut :=
    if e.type = "response.function_call_arguments.done" then
      (step1.1,
       step1.2 ++
         (dispatchFunctionCall env e.call_id e.name e.arguments).map
           RelayOut.toOpenai)
    else step1
  if e.type = "input_audio_buffer.speech_started" ∧
      optTruthy step2.1.last_assistant_item then
    let handled := handle_speech_started_event step2.1
    (handled.1, step2.2 ++ handled.2)
  else step2

/-- Static configuration of the call-duration watchdog:
`MAX_CALL_DURATION` (seconds; `int(os.getenv(..., 3600))`, and `0` is
falsy so it disables the check), the `call_start_time` captured from
the event loop when the OpenAI connection opened, and `LANGUAGE`. -/
structure WatchdogConfig where
  max_call_duration : Nat
  call_start_time : Nat
  language : String
  deriving Repr, DecidableEq

/-- The goodbye line of `check_call_duration`, selected on `LANGUAGE`. -/
def goodbye_text (language : String) : String :=
  if language = "vi" then
    "Xin lỗi, cuộc gọi đã đạt giới hạn thời gian. Cảm ơn bạn đã gọi. Tạm biệt!"
  else
    "I\x27m sorry, but we\x27ve reached the call time limit. Thank you for calling. Goodbye!"

/-- `check_call_duration` (`src/main.py` lines 1271-1309): returns
`False` immediately when `MAX_CALL_DURATION` is falsy; otherwise, when
`now - call_start_time >= MAX_CALL_DURATION`, it sends the goodbye
assistant-message item and a `response.create` — provided `stream_sid`
is truthy, the Twilio socket is open, and the OpenAI socket is open —
and returns `True`; below the limit it only logs and returns `False`.
Both relay loops call it before processing each received message and
`break` when it returns `True`. -/
def check_call_duration (cfg : WatchdogConfig) (now : Nat)
    (stream_sid : Option String) (twilio_open openai_open : Bool) :
    Bool × List RelayOut :=
  if cfg.max_call_duration = 0 then (false, [])
  else if cfg.call_start_time + cfg.max_call_duration ≤ now then
    let outs : List RelayOut :=
      if optTruthy stream_sid ∧ twilio_open then
        if openai_open then
          [.toOpenai (.assistantMessageItem (goodbye_text cfg.language)),
           .toOpenai .responseCreate]
        else []
      else []
    (true, outs)
  else (false, [])

/-- The `receive_from_twilio` loop over a trace of (poll time, parsed
event) pairs: before each event the watchdog is consulted and the loop
breaks when it reports expiry; otherwise the event is processed and
the loop continues. -/
def receive_from_twilio (cfg : WatchdogConfig) (openai_open twilio_open : Bool)
    (s : SessionState) :
    List (Nat × TwilioEvent) → SessionState × List RelayOut
  | [] => (s, [])
  | (now, e) :: rest =>
      let chk := check_call_duration cfg now s.stream_sid twilio_open openai_open
      if chk.1 then (s, chk.2)
      else
        let stepped := receive_from_twilio_event openai_open s e
        let cont := receive_from_twilio cfg openai_open twilio_open stepped.1 rest
        (cont.1, stepped.2 ++ cont.2)

/-- A raw OpenAI socket message: `malformed` stands for one on which
`json.loads` raises or whose parsed value has no `'type'` key; the
exception it causes escapes the `async for` and is caught by the
`try/except` wrapped around the whole loop (`src/main.py` lines
1345-1590), which logs and returns — ending the loop. -/
inductive ModelMsg where
  | malformed
  | ok (e : ModelEvent)
  deriving Repr, DecidableEq

/-- The `send_to_twilio` loop over a trace of (poll time, raw message)
pairs: the watchdog check, then JSON parsing — a malformed message
aborts the loop (its exception is caught by the `except` outside the
`async for`, so nothing after it in the trace is processed) — then the
per-event body. -/
def send_to_twilio {A : Type} (env : ToolEnv A) (cfg : WatchdogConfig)
    (openai_open twilio_open : Bool) (s : SessionState) :
    List (Nat × ModelMsg) → SessionState × List RelayOut
  | [] => (s, [])
  | (now, m) :: rest =>
      let chk := check_call_duration cfg now s.stream_sid twilio_open openai_open
      if chk.1 then (s, chk.2)
      else
        match m with
        | .malformed => (s, [])
        | .ok e =>
            let stepped := send_to_twilio_event env s e
            let cont := send_to_twilio env cfg openai_open twilio_open stepped.1 rest
            (cont.1, stepped.2 ++ cont.2)

/-- One poll of either concurrently running relay loop, for reasoning
about behaviour that spans both loops (both call `check_call_duration`
and break on expiry). -/
inductive RelayStep where
  | fromTwilio (now : Nat) (e : TwilioEvent)
  | fromModel (now : Nat) (m : ModelMsg)
  deriving Repr, DecidableEq

/-- Joint state of the two relay loops: the shared session state plus
one flag per loop recording that it has stopped (broke out of its
`async for`, or — for the model loop — died on a malformed message). -/
structure RelaySystem where
  sess : SessionState
  twilio_loop_done : Bool
  model_loop_done : Bool
  deriving Repr, DecidableEq

/-- One scheduled poll of the two-loop system. A loop that has already
stopped polls nothing. -/
def relay_step {A : Type} (env : ToolEnv A) (cfg : WatchdogConfig)
    (openai_open twilio_open : Bool) (st : RelaySystem) :
    RelayStep → RelaySystem × List RelayOut
  | .fromTwilio now e =>
      if st.twilio_loop_done then (st, [])
      else
        let chk := check_call_duration cfg now st.sess.stream_sid
          twilio_open openai_open
        if chk.1 then ({ st with twilio_loop_done := true }, chk.2)
        else
          let stepped := receive_from_twilio_event openai_open st.sess e
          ({ st with sess := stepped.1 }, stepped.2)
  | .fromModel now m =>
      if st.model_loop_done then (st, [])
      else
        let chk := check_call_duration cfg now st.sess.stream_sid
          twilio_open openai_open
        if chk.1 then ({ st with model_loop_done := true }, chk.2)
        else
          match m with
          | .malformed => ({ st with model_loop_done := true }, [])
          | .ok e =>
              let stepped := send_to_twilio_event env st.sess e
              ({ st with sess := stepped.1 }, stepped.2)

/-- Run the two-loop system along one interleaving of polls. -/
def relay_run {A : Type} (env : ToolEnv A) (cfg : WatchdogConfig)
    (openai_open twilio_open : Bool) (st : RelaySystem) :
    List RelayStep → RelaySystem × List RelayOut
  | [] => (st, [])
  | stp :: rest =>
      let one := relay_step env cfg openai_open twilio_open st stp
      let cont := relay_run env cfg openai_open twilio_open one.1 rest
      (cont.1, one.2 ++ cont.2)

/-- Is this outbound message the watchdog's synthesized assistant
goodbye item?  No other part of the relay core creates an
assistant-message conversation item. -/
def isGoodbyeItem : RelayOut → Bool
  | .toOpenai (.assistantMessageItem _) => true
  | _ => false

/-- Number of goodbye items in an output trace. -/
def goodbyeCount (outs : List RelayOut) : Nat :=
  (outs.filter isGoodbyeItem).length

/-! ### Concrete fixtures for witnesses and counterexamples -/

/-- A concrete tool environment over a unit argument record: only the
literal string of a pair of braces parses, parse errors carry the
message CPython json gives for garbage input, and every handler
returns a fixed text. -/
def unitEnv : ToolEnv Unit where
  parseArgs := fun a => if a = "\x7b\x7d" then some () else none
  parseErrMsg := fun _ => "Expecting value: line 1 column 1 (char 0)"
  emptyArgs := ()
  run := fun _ _ => ToolOutcome.ok "tool result"
  reenc := fun p => p

/-- The session state right after the connection-specific variables are
initialized (`src/main.py` lines 1255-1259). -/
def sInit : SessionState :=
  { stream_sid := none, latest_media_timestamp := 0,
    last_assistant_item := none, mark_queue := [],
    response_start_timestamp_twilio := none }

/-- A concrete well-formed audio delta event. -/
def eDelta : ModelEvent :=
  { type := "response.audio.delta", delta := some "QUJD",
    item_id := some "item_1", call_id := none, name := none,
    arguments := none }

/-- A concrete tool-call completion event for the registered tool
named by the web-search branch, with no arguments payload. -/
def eDone : ModelEvent :=
  { type := "response.function_call_arguments.done", delta := none,
    item_id := none, call_id := some "call_1", name := some "web_search",
    arguments := none }

/-! ### C9 — mark idempotence -/

/-- Dropping after popping the head is dropping one more. -/
theorem list_drop_tail {α : Type} (l : List α) (n : Nat) :
    l.tail.drop n = l.drop (n + 1) := by
  cases l <;> simp

/-- C9: processing a telephony `mark` event pops exactly one entry off
`markQueue` when it is non-empty and is a no-op when it is empty; over
any sequence of `mark` events the queue length never goes negative and
marks beyond the current length leave the queue unchanged (the final
queue is the initial one with one entry dropped per mark, saturating
at empty). -/
theorem mark_event_idempotent (cfg : WatchdogConfig) (oo tw : Bool)
    (s : SessionState) (nm : String) :
    (s.mark_queue ≠ [] →
      receive_from_twilio_event oo s (TwilioEvent.mark nm) =
        ({ s with mark_queue := s.mark_queue.tail }, [])) ∧
    (s.mark_queue = [] →
      receive_from_twilio_event oo s (TwilioEvent.mark nm) = (s, [])) ∧
    (cfg.max_call_duration = 0 →
      ∀ ms : List (Nat × String),
        (receive_from_twilio cfg oo tw s
            (ms.map (fun p => (p.1, TwilioEvent.mark p.2)))).1.mark_queue =
          s.mark_queue.drop ms.length) := by
  refine ⟨?_, ?_, ?_⟩
  · intro h
    simp [receive_from_twilio_event, List.isEmpty_iff, h]
  · intro h
    simp [receive_from_twilio_event, h]
  · intro hcfg ms
    induction ms generalizing s with
    | nil => simp [receive_from_twilio]
    | cons p rest ih =>
        by_cases h : s.mark_queue = []
        · simp [receive_from_twilio, check_call_duration, hcfg,
            receive_from_twilio_event, h, ih]
        · simp [receive_from_twilio, check_call_duration, hcfg,
            receive_from_twilio_event, List.isEmpty_iff, h, ih,
            list_drop_tail]

/-- Witness for C9 on concrete data: two marks against a one-element
queue drain it and the second is a no-op. -/
theorem mark_event_idempotent_witness :
    (receive_from_twilio ⟨0, 0, "en"⟩ true true
        { stream_sid := some "MZ", latest_media_timestamp := 3,
          last_assistant_item := none, mark_queue := ["responsePart"],
          response_start_timestamp_twilio := none }
        ([((1 : Nat), "a"), ((2 : Nat), "b")].map
          (fun p => (p.1, TwilioEvent.mark p.2)))).1.mark_queue = [] := by
  simpa using
    (mark_event_idempotent ⟨0, 0, "en"⟩ true true
      { stream_sid := some "MZ", latest_media_timestamp := 3,
        last_assistant_item := none, mark_queue := ["responsePart"],
        response_start_timestamp_twilio := none } "a").2.2 rfl
      [((1 : Nat), "a"), ((2 : Nat), "b")]

/-! ### C2 — start event and turn-taking state -/

/-- C2: the claim says a telephony `start` event clears
`lastAssistantItemId` and `responseStartTimestampMs` as read by the
barge-in controller. In the source, `receive_from_twilio` declares
only `stream_sid` and `latest_media_timestamp` as `nonlocal`, so the
assignments `response_start_timestamp_twilio = None` and
`last_assistant_item = None` in the `start` branch bind locals and the
shared fields keep their old values: on a concrete state with both
fields set, processing `start` updates `stream_sid` and resets
`latest_media_timestamp` to 0 but leaves both turn-taking fields
intact. -/
theorem start_event_does_not_clear_turn_state :
    receive_from_twilio_event true
        { stream_sid := none, latest_media_timestamp := 57,
          last_assistant_item := some "item_A",
          mark_queue := ["responsePart"],
          response_start_timestamp_twilio := some 12 }
        (TwilioEvent.start "MZ123") =
      ({ stream_sid := some "MZ123", latest_media_timestamp := 0,
         last_assistant_item := some "item_A",
         mark_queue := ["responsePart"],
         response_start_timestamp_twilio := some 12 }, []) := rfl

/-! ### C3 — media timestamp bookkeeping -/

/-- C3 counterexample: the claim says `latestMediaTimestampMs` is
updated by a `media` event whether or not the model connection is
open. The guard `data['event'] == 'media' and openai_ws.open` skips
the whole branch when the socket is closed: with the socket closed and
a stored timestamp of 7, a media event carrying timestamp 9 leaves the
field at 7. -/
theorem media_timestamp_closed_counterexample :
    ((receive_from_twilio_event false
        { stream_sid := some "MZ", latest_media_timestamp := 7,
          last_assistant_item := none, mark_queue := [],
          response_start_timestamp_twilio := none }
        (TwilioEvent.media 9 "pp")).1).latest_media_timestamp ≠ 9 := by
  decide

/-- C3 amended: a `media` event updates `latestMediaTimestampMs` to
its timestamp and forwards the payload only when the model connection
is open; with the connection closed the event is skipped entirely
(timestamp update included). Consequently, over any run of `media`
events processed while the connection is open, the final
`latestMediaTimestampMs` is the timestamp of the last one. -/
theorem media_timestamp_tracks_open (cfg : WatchdogConfig) (tw : Bool)
    (s : SessionState) (ts : Int) (p : String) :
    (receive_from_twilio_event true s (TwilioEvent.media ts p) =
      ({ s with latest_media_timestamp := ts },
       [RelayOut.toOpenai (OpenAIOut.audioAppend p)])) ∧
    (receive_from_twilio_event false s (TwilioEvent.media ts p) = (s, [])) ∧
    (cfg.max_call_duration = 0 →
      ∀ (pre : List (Nat × Int × String)) (n : Nat) (tsL : Int) (pL : String),
        ((receive_from_twilio cfg true tw s
            ((pre ++ [(n, tsL, pL)]).map
              (fun q => (q.1, TwilioEvent.media q.2.1 q.2.2)))).1
          ).latest_media_timestamp = tsL) := by
  refine ⟨rfl, rfl, ?_⟩
  intro hcfg pre
  induction pre generalizing s with
  | nil =>
      intro n tsL pL
      simp [receive_from_twilio, check_call_duration, hcfg,
        receive_from_twilio_event]
  | cons q rest ih =>
      intro n tsL pL
      simpa [receive_from_twilio, check_call_duration, hcfg,
        receive_from_twilio_event] using ih _ n tsL pL

/-- Witness for C3 amended on concrete data: with the model socket
open, two media events leave the last timestamp in place. -/
theorem media_timestamp_tracks_open_witness :
    ((receive_from_twilio ⟨0, 0, "en"⟩ true true sInit
        (([((1 : Nat), (10 : Int), "p1")] ++ [((2 : Nat), (20 : Int), "p2")]).map
          (fun q => (q.1, TwilioEvent.media q.2.1 q.2.2)))).1
      ).latest_media_timestamp = 20 :=
  (media_timestamp_tracks_open ⟨0, 0, "en"⟩ true sInit 0 "x").2.2 rfl
    [((1 : Nat), (10 : Int), "p1")] 2 20 "p2"

/-! ### C1 — barge-in correctness -/

/-- C1: handling a `speech_started` model event in a state with a
non-empty `markQueue`, `responseStartTimestampMs = t0`,
`lastAssistantItemId` set, and `latestMediaTimestampMs = t1 ≥ t0`
sends exactly one truncate command for that item with content index 0
and `audio_end_ms = t1 - t0`, followed by exactly one telephony
`clear` for the current stream; afterwards `markQueue` is empty and
both `lastAssistantItemId` and `responseStartTimestampMs` are
cleared. -/
theorem barge_in_truncate_and_clear {A : Type} (env : ToolEnv A)
    (s : SessionState) (e : ModelEvent) (item : String) (t0 : Int)
    (htype : e.type = "input_audio_buffer.speech_started")
    (hitem : s.last_assistant_item = some item) (hne : item ≠ "")
    (ht0 : s.response_start_timestamp_twilio = some t0)
    (hmq : s.mark_queue ≠ [])
    (hts : t0 ≤ s.latest_media_timestamp) :
    send_to_twilio_event env s e =
      ({ s with mark_queue := [], last_assistant_item := none,
                response_start_timestamp_twilio := none },
       [RelayOut.toOpenai
          (OpenAIOut.truncate item 0 (s.latest_media_timestamp - t0)),
        RelayOut.toTwilio (TwilioOut.clear s.stream_sid)]) := by
  simp [send_to_twilio_event, htype, handle_speech_started_event, hitem,
    hne, ht0, List.isEmpty_iff, hmq, optTruthy]

/-- Witness for C1 on concrete data: stream `MZ9`, one pending mark,
utterance started at 100 ms, caller speech detected at 250 ms. -/
theorem barge_in_truncate_and_clear_witness :
    send_to_twilio_event unitEnv
        { stream_sid := some "MZ9", latest_media_timestamp := 250,
          last_assistant_item := some "item_7",
          mark_queue := ["responsePart"],
          response_start_timestamp_twilio := some 100 }
        { type := "input_audio_buffer.speech_started", delta := none,
          item_id := none, call_id := none, name := none,
          arguments := none } =
      ({ stream_sid := some "MZ9", latest_media_timestamp := 250,
         last_assistant_item := none, mark_queue := [],
         response_start_timestamp_twilio := none },
       [RelayOut.toOpenai (OpenAIOut.truncate "item_7" 0 150),
        RelayOut.toTwilio (TwilioOut.clear (some "MZ9"))]) := by
  simpa using barge_in_truncate_and_clear unitEnv
    { stream_sid := some "MZ9", latest_media_timestamp := 250,
      last_assistant_item := some "item_7",
      mark_queue := ["responsePart"],
      response_start_timestamp_twilio := some 100 }
    { type := "input_audio_buffer.speech_started", delta := none,
      item_id := none, call_id := none, name := none, arguments := none }
    "item_7" 100 rfl rfl (by decide) rfl (by decide) (by decide)

/-! ### C10 — audio delta before the first start event -/

/-- C10: an audio delta processed while `streamId` is still unset
still sends the telephony media frame (with a null stream id) and
still records `responseStartTimestampMs` and `lastAssistantItemId`,
but `send_mark` does nothing: no mark event is sent and `markQueue` is
not extended. -/
theorem audio_delta_before_start {A : Type} (env : ToolEnv A)
    (s : SessionState) (e : ModelEvent) (d i : String)
    (hsid : s.stream_sid = none)
    (htype : e.type = "response.audio.delta")
    (hd : e.delta = some d)
    (hrs : s.response_start_timestamp_twilio = none)
    (hi : e.item_id = some i) (hine : i ≠ "") :
    send_to_twilio_event env s e =
      ({ s with response_start_timestamp_twilio :=
                  some s.latest_media_timestamp,
                last_assistant_item := some i },
       [RelayOut.toTwilio (TwilioOut.media none (env.reenc d))]) := by
  simp [send_to_twilio_event, htype, hd, hsid, hrs, hi, hine, optTruthy,
    send_mark]

/-- Witness for C10 on concrete data: the greeting's first delta,
arriving before any `start` event. -/
theorem audio_delta_before_start_witness :
    send_to_twilio_event unitEnv sInit eDelta =
      ({ stream_sid := none, latest_media_timestamp := 0,
         last_assistant_item := some "item_1", mark_queue := [],
         response_start_timestamp_twilio := some 0 },
       [RelayOut.toTwilio (TwilioOut.media none "QUJD")]) := by
  simpa [sInit, eDelta, unitEnv] using
    audio_delta_before_start unitEnv sInit eDelta "QUJD" "item_1"
      rfl rfl rfl rfl rfl (by decide)

/-! ### Dispatcher shape lemmas -/

/-- For a registered tool name, the name-dispatch chain always emits
exactly the pair: one `function_call_output` keyed by the call id,
then one `response.create` — whatever the handler does. -/
theorem dispatch_by_name_registered_pair {A : Type} (env : ToolEnv A)
    (cid : Option String) (n : String) (hreg : n ∈ registered_tools)
    (v : A) :
    ∃ out, dispatch_by_name env cid (some n) v =
      [OpenAIOut.functionCallOutput cid out, OpenAIOut.responseCreate] := by
  cases hr : env.run n v with
  | ok r => exact ⟨r, by simp [dispatch_by_name, hreg, hr]⟩
  | exc m =>
      exact ⟨"Error executing function: " ++ m,
        by simp [dispatch_by_name, hreg, hr]⟩

/-- For a registered tool name the whole arguments-parse-then-dispatch
handler emits exactly the output/response pair, on every shape of the
arguments payload. -/
theorem dispatchFunctionCall_registered_pair {A : Type} (env : ToolEnv A)
    (cid : Option String) (n : String) (hreg : n ∈ registered_tools)
    (args : Option String) :
    ∃ out, dispatchFunctionCall env cid (some n) args =
      [OpenAIOut.functionCallOutput cid out, OpenAIOut.responseCreate] := by
  match args with
  | none =>
      simpa [dispatchFunctionCall] using
        dispatch_by_name_registered_pair env cid n hreg env.emptyArgs
  | some a =>
      by_cases ha : a = ""
      · simpa [dispatchFunctionCall, ha] using
          dispatch_by_name_registered_pair env cid n hreg env.emptyArgs
      · cases hp : env.parseArgs a with
        | some v =>
            simpa [dispatchFunctionCall, ha, hp] using
              dispatch_by_name_registered_pair env cid n hreg v
        | none =>
            exact ⟨"Error executing function: " ++ env.parseErrMsg a,
              by simp [dispatchFunctionCall, ha, hp]⟩

/-! ### C5 — tool round trip and failure containment -/

/-- C5: for a `response.function_call_arguments.done` event naming a
registered tool, the model loop sends exactly one
`function_call_output` conversation item keyed by the event's call id
followed by exactly one `response.create` — whether the handler
returns normally or raises (the raised message is wrapped as the
output text) — the session state is untouched and the loop goes on to
process the remaining events. -/
theorem tool_dispatch_round_trip {A : Type} (env : ToolEnv A)
    (cfg : WatchdogConfig) (oo tw : Bool) (e : ModelEvent) (n : String)
    (htype : e.type = "response.function_call_arguments.done")
    (hname : e.name = some n) (hreg : n ∈ registered_tools)
    (hcfg : cfg.max_call_duration = 0) :
    (∀ (v : A) (r : String), env.run n v = ToolOutcome.ok r →
        dispatch_by_name env e.call_id (some n) v =
          [OpenAIOut.functionCallOutput e.call_id r,
           OpenAIOut.responseCreate]) ∧
    (∀ (v : A) (m : String), env.run n v = ToolOutcome.exc m →
        dispatch_by_name env e.call_id (some n) v =
          [OpenAIOut.functionCallOutput e.call_id
             ("Error executing function: " ++ m),
           OpenAIOut.responseCreate]) ∧
    (∃ out : String,
      ∀ (s : SessionState) (now : Nat) (rest : List (Nat × ModelMsg)),
        send_to_twilio env cfg oo tw s ((now, ModelMsg.ok e) :: rest) =
          ((send_to_twilio env cfg oo tw s rest).1,
           RelayOut.toOpenai
               (OpenAIOut.functionCallOutput e.call_id out) ::
             RelayOut.toOpenai OpenAIOut.responseCreate ::
               (send_to_twilio env cfg oo tw s rest).2)) := by
  refine ⟨?_, ?_, ?_⟩
  · intro v r hr
    simp [dispatch_by_name, hreg, hr]
  · intro v m hm
    simp [dispatch_by_name, hreg, hm]
  · obtain ⟨out, hout⟩ :=
      dispatchFunctionCall_registered_pair env e.call_id n hreg e.arguments
    refine ⟨out, fun s now rest => ?_⟩
    have hevent : send_to_twilio_event env s e =
        (s, [RelayOut.toOpenai (OpenAIOut.functionCallOutput e.call_id out),
             RelayOut.toOpenai OpenAIOut.responseCreate]) := by
      simp [send_to_twilio_event, htype, hname ▸ hout]
    simp [send_to_twilio, check_call_duration, hcfg, hevent]

/-- Witness for C5 on concrete data: the `web_search` completion event
against the unit environment, followed by an empty remainder of the
trace. -/
theorem tool_dispatch_round_trip_witness :
    (dispatch_by_name unitEnv (some "call_1") (some "web_search") () =
      [OpenAIOut.functionCallOutput (some "call_1") "tool result",
       OpenAIOut.responseCreate]) ∧
    ∃ out : String,
      send_to_twilio unitEnv ⟨0, 0, "en"⟩ true true sInit
          [((5 : Nat), ModelMsg.ok eDone)] =
        (sInit,
         [RelayOut.toOpenai
            (OpenAIOut.functionCallOutput (some "call_1") out),
          RelayOut.toOpenai OpenAIOut.responseCreate]) := by
  obtain ⟨hok, hexc, out, h⟩ := tool_dispatch_round_trip unitEnv
    ⟨0, 0, "en"⟩ true true eDone "web_search" rfl rfl (by decide) rfl
  refine ⟨by simpa [eDone] using hok () "tool result" rfl, out, ?_⟩
  simpa [send_to_twilio, eDone] using h sInit 5 []

/-! ### C6 — malformed tool arguments -/

/-- C6 counterexample: the claim says an unparsable arguments payload
is treated as an empty argument set. On a concrete unparsable payload
for the registered `web_search` tool, the dispatcher goes down the
exception path and sends the error text, not the handler result that
the empty argument set produces. -/
theorem malformed_args_counterexample :
    dispatchFunctionCall unitEnv (some "call_1") (some "web_search")
        (some "not json") ≠
      dispatch_by_name unitEnv (some "call_1") (some "web_search")
        unitEnv.emptyArgs := by
  decide

/-- C6 amended: only an absent or empty arguments payload is treated
as the empty argument set; a non-empty payload on which JSON parsing
fails raises inside the `try`, and the `except` clause sends one
`function_call_output` carrying the error description plus one
`response.create` — non-fatally, without invoking any handler. -/
theorem malformed_args_error_path {A : Type} (env : ToolEnv A)
    (cid nm : Option String) (a : String) (ha : a ≠ "")
    (hp : env.parseArgs a = none) :
    (dispatchFunctionCall env cid nm (some a) =
      [OpenAIOut.functionCallOutput cid
         ("Error executing function: " ++ env.parseErrMsg a),
       OpenAIOut.responseCreate]) ∧
    (dispatchFunctionCall env cid nm none =
      dispatch_by_name env cid nm env.emptyArgs) ∧
    (dispatchFunctionCall env cid nm (some "") =
      dispatch_by_name env cid nm env.emptyArgs) := by
  refine ⟨?_, ?_, ?_⟩
  · simp [dispatchFunctionCall, ha, hp]
  · simp [dispatchFunctionCall]
  · simp [dispatchFunctionCall]

/-- Witness for C6 amended on concrete data. -/
theorem malformed_args_error_path_witness :
    dispatchFunctionCall unitEnv (some "call_1") (some "web_search")
        (some "oops") =
      [OpenAIOut.functionCallOutput (some "call_1")
         ("Error executing function: " ++ unitEnv.parseErrMsg "oops"),
       OpenAIOut.responseCreate] :=
  (malformed_args_error_path unitEnv (some "call_1") (some "web_search")
    "oops" (by decide) (by decide)).1

/-! ### C8 — unknown tool names -/

/-- C8 counterexample: the claim says an event naming an unregistered
tool produces zero outbound commands. When the arguments payload is
also unparsable, the JSON decode error fires before the name is ever
compared, and the error output plus `response.create` are sent. -/
theorem unknown_tool_counterexample :
    dispatchFunctionCall unitEnv (some "call_1") (some "frobnicate")
        (some "not json") ≠ [] := by
  decide

/-- C8 amended: when the arguments payload is absent, empty, or
parseable, an event naming an unregistered tool is logged and dropped
with zero outbound commands; an unparsable payload instead takes the
error path before the name check. -/
theorem unknown_tool_dropped {A : Type} (env : ToolEnv A)
    (cid : Option String) (n : String) (hreg : n ∉ registered_tools)
    (args : Option String)
    (hparse : args = none ∨ args = some "" ∨
      ∃ a, args = some a ∧ (env.parseArgs a).isSome) :
    dispatchFunctionCall env cid (some n) args = [] := by
  rcases hparse with h | h | ⟨a, rfl, hsome⟩
  · subst h
    simp [dispatchFunctionCall, dispatch_by_name, hreg]
  · subst h
    simp [dispatchFunctionCall, dispatch_by_name, hreg]
  · by_cases ha : a = ""
    · simp [dispatchFunctionCall, ha, dispatch_by_name, hreg]
    · obtain ⟨v, hv⟩ := Option.isSome_iff_exists.mp hsome
      simp [dispatchFunctionCall, ha, hv, dispatch_by_name, hreg]

/-- Witness for C8 amended on concrete data: an unknown name with no
arguments payload produces no outbound commands. -/
theorem unknown_tool_dropped_witness :
    dispatchFunctionCall unitEnv (some "call_1") (some "frobnicate")
        none = [] :=
  unknown_tool_dropped unitEnv (some "call_1") "frobnicate" (by decide)
    none (Or.inl rfl)

/-! ### C4 — malformed model events -/

/-- C4 counterexample: the claim says a malformed model event is
dropped and the loop continues with subsequent events. On a concrete
trace holding a malformed message followed by a well-formed audio
delta, the loop output differs from the output on the trace without
the malformed message: the delta after it is never processed. -/
theorem malformed_model_event_counterexample :
    send_to_twilio unitEnv ⟨0, 0, "en"⟩ true true sInit
        [((1 : Nat), ModelMsg.malformed), ((2 : Nat), ModelMsg.ok eDelta)] ≠
      send_to_twilio unitEnv ⟨0, 0, "en"⟩ true true sInit
        [((2 : Nat), ModelMsg.ok eDelta)] := by
  decide

/-- C4 amended: a model message on which JSON parsing (or the `'type'`
lookup) raises ends the model-to-telephony loop: the exception is
caught and logged by the handler wrapped around the whole loop, so it
does not abort the session or propagate, but no subsequent model event
of that trace is processed and the session state is left as it was. -/
theorem malformed_model_event_stops_loop {A : Type} (env : ToolEnv A)
    (cfg : WatchdogConfig) (oo tw : Bool) (s : SessionState) (now : Nat)
    (rest : List (Nat × ModelMsg)) (hcfg : cfg.max_call_duration = 0) :
    send_to_twilio env cfg oo tw s ((now, ModelMsg.malformed) :: rest) =
      (s, []) := by
  simp [send_to_twilio, check_call_duration, hcfg]

/-- Witness for C4 amended on concrete data. -/
theorem malformed_model_event_stops_loop_witness :
    send_to_twilio unitEnv ⟨0, 0, "en"⟩ true true sInit
        [((1 : Nat), ModelMsg.malformed), ((2 : Nat), ModelMsg.ok eDelta)] =
      (sInit, []) :=
  malformed_model_event_stops_loop unitEnv ⟨0, 0, "en"⟩ true true sInit 1
    [((2 : Nat), ModelMsg.ok eDelta)] rfl

/-! ### Goodbye-count bookkeeping for the watchdog claims -/

/-- Goodbye counting distributes over concatenation. -/
theorem goodbyeCount_append (a b : List RelayOut) :
    goodbyeCount (a ++ b) = goodbyeCount a + goodbyeCount b := by
  simp [goodbyeCount, List.filter_append]

/-- The empty trace has no goodbye items. -/
theorem goodbyeCount_nil : goodbyeCount [] = 0 := rfl

/-- Goodbye counting steps through a cons cell. -/
theorem goodbyeCount_cons (x : RelayOut) (l : List RelayOut) :
    goodbyeCount (x :: l) =
      (if isGoodbyeItem x then 1 else 0) + goodbyeCount l := by
  by_cases h : isGoodbyeItem x
  · simp [goodbyeCount, List.filter_cons, h, Nat.add_comm]
  · simp [goodbyeCount, List.filter_cons, h]

/-- The telephony-side event handler never sends a goodbye item. -/
theorem goodbyeCount_receive_event (oo : Bool) (s : SessionState)
    (e : TwilioEvent) :
    goodbyeCount (receive_from_twilio_event oo s e).2 = 0 := by
  cases e <;>
    simp [receive_from_twilio_event, goodbyeCount, isGoodbyeItem] <;>
    split_ifs <;> simp [goodbyeCount, isGoodbyeItem]

/-- `send_mark` never sends a goodbye item. -/
theorem goodbyeCount_send_mark (s : SessionState) :
    goodbyeCount (send_mark s).2 = 0 := by
  unfold send_mark
  rcases s.stream_sid with _ | sid
  · simp [goodbyeCount]
  · dsimp only
    split_ifs <;> simp [goodbyeCount, isGoodbyeItem]

/-- The barge-in handler never sends a goodbye item. -/
theorem goodbyeCount_handle_speech (s : SessionState) :
    goodbyeCount (handle_speech_started_event s).2 = 0 := by
  unfold handle_speech_started_event
  rcases s.response_start_timestamp_twilio with _ | t0
  · simp [goodbyeCount]
  · dsimp only
    split_ifs with h
    · simp [goodbyeCount]
    · rcases s.last_assistant_item with _ | item
      · simp [goodbyeCount_cons, goodbyeCount_nil, isGoodbyeItem]
      · dsimp only
        split_ifs <;>
          simp [goodbyeCount_cons, goodbyeCount_nil, goodbyeCount_append,
            isGoodbyeItem]

/-- The name-dispatch chain never sends a goodbye item. -/
theorem goodbyeCount_dispatch_by_name {A : Type} (env : ToolEnv A)
    (cid : Option String) (nm : Option String) (v : A) :
    goodbyeCount ((dispatch_by_name env cid nm v).map RelayOut.toOpenai)
      = 0 := by
  unfold dispatch_by_name
  rcases nm with _ | n
  · simp [goodbyeCount]
  · by_cases hreg : n ∈ registered_tools
    · cases hr : env.run n v <;>
        simp [hreg, hr, goodbyeCount, isGoodbyeItem]
    · simp [hreg, goodbyeCount]

/-- The whole tool dispatcher never sends a goodbye item. -/
theorem goodbyeCount_dispatchFunctionCall {A : Type} (env : ToolEnv A)
    (cid : Option String) (nm : Option String) (args : Option String) :
    goodbyeCount
        ((dispatchFunctionCall env cid nm args).map RelayOut.toOpenai)
      = 0 := by
  unfold dispatchFunctionCall
  rcases args with _ | a
  · exact goodbyeCount_dispatch_by_name env cid nm env.emptyArgs
  · dsimp only
    split_ifs with ha
    · exact goodbyeCount_dispatch_by_name env cid nm env.emptyArgs
    · cases hp : env.parseArgs a with
      | none => simp [hp, goodbyeCount_cons, goodbyeCount_nil, isGoodbyeItem]
      | some v =>
          simp only [hp]
          exact goodbyeCount_dispatch_by_name env cid nm v

/-- The model-side event handler never sends a goodbye item. -/
theorem goodbyeCount_send_event {A : Type} (env : ToolEnv A)
    (s : SessionState) (e : ModelEvent) :
    goodbyeCount (send_to_twilio_event env s e).2 = 0 := by
  unfold send_to_twilio_event
  by_cases h1 : e.type = "response.audio.delta" ∧ e.delta.isSome = true
  · have hd := h1.1
    simp [h1, hd, goodbyeCount_cons, goodbyeCount_append, goodbyeCount_nil,
      goodbyeCount_send_mark, isGoodbyeItem]
  · by_cases h2 : e.type = "response.function_call_arguments.done"
    · simp [h1, h2, goodbyeCount_append, goodbyeCount_nil,
        goodbyeCount_dispatchFunctionCall]
    · by_cases h3 : e.type = "input_audio_buffer.speech_started" ∧
          optTruthy s.last_assistant_item = true
      · simp [h1, h2, h3, goodbyeCount_append, goodbyeCount_nil,
          goodbyeCount_handle_speech]
      · simp [h1, h2, h3, goodbyeCount_nil]

/-- One watchdog check sends the goodbye item at most once. -/
theorem goodbyeCount_check_le (cfg : WatchdogConfig) (now : Nat)
    (sid : Option String) (tw oo : Bool) :
    goodbyeCount (check_call_duration cfg now sid tw oo).2 ≤ 1 := by
  unfold check_call_duration
  dsimp only
  split_ifs <;> simp [goodbyeCount, isGoodbyeItem]

/-- Number of relay loops that are still running. -/
def loops_running (st : RelaySystem) : Nat :=
  (if st.twilio_loop_done then 0 else 1) +
    (if st.model_loop_done then 0 else 1)

/-- Each poll of the two-loop system pays one stopped loop for each
goodbye it emits: emissions happen only on the poll that stops a
loop. -/
theorem relay_step_goodbye_budget {A : Type} (env : ToolEnv A)
    (cfg : WatchdogConfig) (oo tw : Bool) (st : RelaySystem)
    (stp : RelayStep) :
    goodbyeCount (relay_step env cfg oo tw st stp).2 +
      loops_running (relay_step env cfg oo tw st stp).1 ≤
        loops_running st := by
  cases stp with
  | fromTwilio now e =>
      by_cases hdone : st.twilio_loop_done
      · simp [relay_step, hdone, goodbyeCount]
      · by_cases hc : (check_call_duration cfg now st.sess.stream_sid
            tw oo).1
        · have := goodbyeCount_check_le cfg now st.sess.stream_sid tw oo
          simp only [relay_step, hdone, if_false, Bool.false_eq_true, hc,
            if_true, loops_running]
          simp only [loops_running] at *
          omega
        · simp [relay_step, hdone, hc, goodbyeCount_receive_event,
            loops_running]
  | fromModel now m =>
      by_cases hdone : st.model_loop_done
      · simp [relay_step, hdone, goodbyeCount]
      · by_cases hc : (check_call_duration cfg now st.sess.stream_sid
            tw oo).1
        · have := goodbyeCount_check_le cfg now st.sess.stream_sid tw oo
          simp only [relay_step, hdone, if_false, Bool.false_eq_true, hc,
            if_true, loops_running]
          simp only [loops_running] at *
          omega
        · cases m with
          | malformed =>
              simp [relay_step, hdone, hc, goodbyeCount, loops_running]
          | ok e =>
              simp [relay_step, hdone, hc, goodbyeCount_send_event,
                loops_running]

/-- Along any interleaving, the system emits at most one goodbye per
loop it stops. -/
theorem relay_run_goodbye_budget {A : Type} (env : ToolEnv A)
    (cfg : WatchdogConfig) (oo tw : Bool) :
    ∀ (steps : List RelayStep) (st : RelaySystem),
      goodbyeCount (relay_run env cfg oo tw st steps).2 +
        loops_running (relay_run env cfg oo tw st steps).1 ≤
          loops_running st := by
  intro steps
  induction steps with
  | nil => intro st; simp [relay_run, goodbyeCount]
  | cons stp rest ih =>
      intro st
      have h1 := relay_step_goodbye_budget env cfg oo tw st stp
      have h2 := ih (relay_step env cfg oo tw st stp).1
      simp only [relay_run, goodbyeCount_append]
      omega

/-! ### C7 — the call-duration watchdog -/

/-- A session state in which a stream has started: used to exercise
the watchdog on concrete data. -/
def sStarted : SessionState :=
  { stream_sid := some "MZ1", latest_media_timestamp := 0,
    last_assistant_item := none, mark_queue := [],
    response_start_timestamp_twilio := none }

/-- C7 counterexample: the claim says the goodbye item plus
`response.create` is sent exactly once. Both relay loops run
`check_call_duration` before each message they receive, and each call
past the limit that finds the stream known and the sockets open sends
the pair before its loop breaks: with a 10-second limit and one
pending message per loop at 10 seconds, the pair goes out twice. -/
theorem watchdog_goodbye_sent_twice :
    goodbyeCount
        (relay_run unitEnv ⟨10, 0, "en"⟩ true true
          { sess := sStarted, twilio_loop_done := false,
            model_loop_done := false }
          [RelayStep.fromTwilio 10 (TwilioEvent.other "stop"),
           RelayStep.fromModel 10 ModelMsg.malformed]).2 = 2 := by
  decide

/-- C7 amended: with a nonzero configured limit `D`, no
termination-triggering action occurs at a poll before elapsed time
`D` (the check reports no expiry and sends nothing); at the first poll
at or after `D`, a loop that is still running stops and — when the
stream id is truthy and both sockets are open — sends the synthesized
goodbye item plus a `response.create`; each loop does this at most
once, so along any interleaving the pair is sent at most twice (not
exactly once: each of the two loops performs its own check); with the
limit zero or unset the check never reports expiry and never sends. -/
theorem watchdog_behavior {A : Type} (env : ToolEnv A)
    (cfg : WatchdogConfig) (oo tw : Bool) :
    (∀ (now : Nat) (sid : Option String), cfg.max_call_duration ≠ 0 →
        now < cfg.call_start_time + cfg.max_call_duration →
        check_call_duration cfg now sid tw oo = (false, [])) ∧
    (cfg.max_call_duration = 0 → ∀ (now : Nat) (sid : Option String),
        check_call_duration cfg now sid tw oo = (false, [])) ∧
    (∀ (now : Nat) (sid : Option String), cfg.max_call_duration ≠ 0 →
        cfg.call_start_time + cfg.max_call_duration ≤ now →
        optTruthy sid = true → tw = true → oo = true →
        check_call_duration cfg now sid tw oo =
          (true,
           [RelayOut.toOpenai
              (OpenAIOut.assistantMessageItem (goodbye_text cfg.language)),
            RelayOut.toOpenai OpenAIOut.responseCreate])) ∧
    (∀ (s : SessionState) (tr : List (Nat × TwilioEvent)),
        goodbyeCount (receive_from_twilio cfg oo tw s tr).2 ≤ 1) ∧
    (∀ (s : SessionState) (trm : List (Nat × ModelMsg)),
        goodbyeCount (send_to_twilio env cfg oo tw s trm).2 ≤ 1) ∧
    (∀ (s : SessionState) (steps : List RelayStep),
        goodbyeCount
          (relay_run env cfg oo tw
            { sess := s, twilio_loop_done := false,
              model_loop_done := false } steps).2 ≤ 2) ∧
    (∀ (st : RelaySystem) (now : Nat) (e : TwilioEvent),
        st.twilio_loop_done = false →
        (check_call_duration cfg now st.sess.stream_sid tw oo).1 = true →
        relay_step env cfg oo tw st (RelayStep.fromTwilio now e) =
          ({ st with twilio_loop_done := true },
           (check_call_duration cfg now st.sess.stream_sid tw oo).2)) ∧
    (∀ (st : RelaySystem) (now : Nat) (m : ModelMsg),
        st.model_loop_done = false →
        (check_call_duration cfg now st.sess.stream_sid tw oo).1 = true →
        relay_step env cfg oo tw st (RelayStep.fromModel now m) =
          ({ st with model_loop_done := true },
           (check_call_duration cfg now st.sess.stream_sid tw oo).2)) := by
  refine ⟨?_, ?_, ?_, ?_, ?_, ?_, ?_, ?_⟩
  · intro now sid hD hlt
    have : ¬ (cfg.call_start_time + cfg.max_call_duration ≤ now) := by
      omega
    simp [check_call_duration, hD, this]
  · intro h0 now sid
    simp [check_call_duration, h0]
  · intro now sid hD hle hsid htw hoo
    subst htw
    subst hoo
    simp [check_call_duration, hD, hle, hsid]
  · intro s tr
    induction tr generalizing s with
    | nil => simp [receive_from_twilio, goodbyeCount]
    | cons p rest ih =>
        obtain ⟨now, e⟩ := p
        by_cases hc : (check_call_duration cfg now s.stream_sid tw oo).1
        · have := goodbyeCount_check_le cfg now s.stream_sid tw oo
          simp only [receive_from_twilio, hc, if_true]
          exact this
        · have h0 := goodbyeCount_receive_event oo s e
          have hr := ih (receive_from_twilio_event oo s e).1
          simp only [receive_from_twilio, hc, Bool.false_eq_true, if_false,
            goodbyeCount_append]
          omega
  · intro s trm
    induction trm generalizing s with
    | nil => simp [send_to_twilio, goodbyeCount]
    | cons p rest ih =>
        obtain ⟨now, m⟩ := p
        by_cases hc : (check_call_duration cfg now s.stream_sid tw oo).1
        · have := goodbyeCount_check_le cfg now s.stream_sid tw oo
          simp only [send_to_twilio, hc, if_true]
          exact this
        · cases m with
          | malformed =>
              simp [send_to_twilio, hc, goodbyeCount]
          | ok e =>
              have h0 := goodbyeCount_send_event env s e
              have hr := ih (send_to_twilio_event env s e).1
              simp only [send_to_twilio, hc, Bool.false_eq_true, if_false,
                goodbyeCount_append]
              omega
  · intro s steps
    have h := relay_run_goodbye_budget env cfg oo tw steps
      { sess := s, twilio_loop_done := false, model_loop_done := false }
    simp only [loops_running, if_false, Bool.false_eq_true] at h
    omega
  · intro st now e hdone hc
    simp [relay_step, hdone, hc]
  · intro st now m hdone hc
    simp [relay_step, hdone, hc]

/-- Witness for C7 amended on concrete data: a 10-second limit is
quiet at 9 seconds, fires with the goodbye pair at 10 seconds, and a
two-poll interleaving at 10 seconds emits at most two pairs. -/
theorem watchdog_behavior_witness :
    check_call_duration ⟨10, 0, "en"⟩ 9 (some "MZ1") true true =
        (false, []) ∧
    check_call_duration ⟨10, 0, "en"⟩ 10 (some "MZ1") true true =
        (true,
         [RelayOut.toOpenai
            (OpenAIOut.assistantMessageItem (goodbye_text "en")),
          RelayOut.toOpenai OpenAIOut.responseCreate]) ∧
    goodbyeCount
        (relay_run unitEnv ⟨10, 0, "en"⟩ true true
          { sess := sStarted, twilio_loop_done := false,
            model_loop_done := false }
          [RelayStep.fromTwilio 10 (TwilioEvent.other "stop"),
           RelayStep.fromModel 10 ModelMsg.malformed]).2 ≤ 2 := by
  refine ⟨?_, ?_, ?_⟩
  · exact (watchdog_behavior unitEnv ⟨10, 0, "en"⟩ true true).1 9
      (some "MZ1") (by decide) (by decide)
  · exact (watchdog_behavior unitEnv ⟨10, 0, "en"⟩ true true).2.2.1 10
      (some "MZ1") (by decide) (by decide) (by decide) rfl rfl
  · exact (watchdog_behavior unitEnv ⟨10, 0, "en"⟩ true true).2.2.2.2.2.1
      sStarted
      [RelayStep.fromTwilio 10 (TwilioEvent.other "stop"),
       RelayStep.fromModel 10 ModelMsg.malformed]

end SpeechRelay
